import Mathlib

/-!
Shallow embedding of the per-frame simulation core of the space-shooter
repository (src/App.tsx plus its constants and types modules).

Modelling conventions:
* JavaScript floating-point numbers are modelled as rationals (`ℚ`); every
  arithmetic operation the game performs (addition, multiplication by
  constants, comparisons, `Math.min`/`Math.max`) is exact on the inputs that
  occur, so `ℚ` is a faithful carrier.
* Wall-clock timestamps (`Date.now()`, the `time` argument of the loop) are
  rationals as well; one tick is treated as instantaneous, i.e. every
  `Date.now()` call inside a single tick returns the same value `now`.
* `Math.random()` is modelled by an explicit stream of draws (`List ℚ`)
  consumed left to right; `nextRand` pops one draw (defaulting to 1, a value
  that fails every strict `< threshold` test, when the stream is exhausted).
* React state (`score`, `lives`, `level`, `activePowerUps`, `achievements`,
  `gameState`) is threaded through the tick explicitly.  Functional updater
  calls (`setX (x => ...)`) queue against the latest value, so threading is
  exact.  The loop closure reads the *snapshot* of `activePowerUps` captured
  when the effect ran (`apu0` below) while updates accumulate into the
  threaded value, mirroring the stale-closure behaviour of the source.
* Entities created mid-tick (particles and power-ups pushed by kill effects)
  are accumulated in dedicated `newParticles` / `newPowerUps` fields and
  concatenated onto the respective collection right where the source's
  later pass picks them up; the source pushes onto the same array before
  that pass runs, so the processed list is identical.
-/

namespace StarWar

/-- The `enum GameState` of the types module. -/
inductive GameState where
  | START
  | PLAYING
  | PAUSED
  | GAME_OVER
deriving DecidableEq, Repr

/-- The `enum EnemyType` of the types module. -/
inductive EnemyType where
  | BASIC
  | FAST
  | HEAVY
deriving DecidableEq, Repr

/-- The `enum PowerUpType` of the types module. -/
inductive PowerUpType where
  | TRIPLE_SHOT
  | SHIELD
  | EXTRA_LIFE
deriving DecidableEq, Repr

/-- The `interface Achievement` of the types module. -/
structure Achievement where
  id : String
  name : String
  description : String
  unlocked : Bool
  icon : String
deriving DecidableEq, Repr

/-- The `INITIAL_ACHIEVEMENTS` list of the types module. -/
def INITIAL_ACHIEVEMENTS : List Achievement :=
  [ ⟨"first_blood", "First Blood", "destroy the first enemy", false, "Target"⟩,
    ⟨"survivor", "Survivor", "survive over 60 seconds in one game", false, "Shield"⟩,
    ⟨"ace_pilot", "Ace Pilot", "destroy 50 enemies", false, "Trophy"⟩,
    ⟨"power_up_junkie", "Power-up Junkie", "pick up 10 power-ups", false, "Zap"⟩,
    ⟨"unstoppable", "Unstoppable", "reach level 5", false, "Flame"⟩,
    ⟨"life_saver", "Life Saver", "pick up an extra-life power-up", false, "Heart"⟩ ]

-- Constants module.

def PLAYER_SIZE : ℚ := 40
def PLAYER_SPEED : ℚ := 5
def PLAYER_INITIAL_LIVES : ℕ := 3
def INVINCIBILITY_DURATION : ℚ := 2000
def BULLET_SPEED : ℚ := 7
def BULLET_SIZE : ℚ := 4
def POWERUP_SIZE : ℚ := 30
def POWERUP_DURATION : ℚ := 8000
def POWERUP_SPAWN_CHANCE : ℚ := 15/100
def ENEMIES_PER_LEVEL : ℕ := 10

/-- One record of `ENEMY_CONFIGS`. -/
structure EnemyConfig where
  size : ℚ
  speed : ℚ
  health : ℤ
  points : ℕ
  color : String
  glow : String
deriving DecidableEq, Repr

/-- The `ENEMY_CONFIGS` table of the constants module. -/
def ENEMY_CONFIGS : EnemyType → EnemyConfig
  | EnemyType.BASIC => ⟨35, 2, 1, 100, "#3b82f6", "#60a5fa"⟩
  | EnemyType.FAST  => ⟨25, 4, 1, 150, "#10b981", "#34d399"⟩
  | EnemyType.HEAVY => ⟨50, 6/5, 3, 300, "#ef4444", "#f87171"⟩

-- Entity classes.

/-- The fields of `class Bullet`. -/
structure Bullet where
  x : ℚ
  y : ℚ
  vx : ℚ
  vy : ℚ
  radius : ℚ
  color : String
  isEnemy : Bool
deriving DecidableEq, Repr

/-- Method `Bullet.update`: position advances by the velocity. -/
def Bullet.update (b : Bullet) : Bullet :=
  { b with x := b.x + b.vx, y := b.y + b.vy }

/-- The fields of `class Enemy` (construction happens in `spawnStep`). -/
structure Enemy where
  x : ℚ
  y : ℚ
  type : EnemyType
  size : ℚ
  speed : ℚ
  health : ℤ
  points : ℕ
  color : String
  glow : String
deriving DecidableEq, Repr

/-- Method `Enemy.update`: enemies move straight down by their speed. -/
def Enemy.update (e : Enemy) : Enemy :=
  { e with y := e.y + e.speed }

/-- The fields of `class PowerUp` (the constructor's random draws happen at
the spawn site, `spawnPowerUpRoll`). -/
structure PowerUp where
  x : ℚ
  y : ℚ
  type : PowerUpType
  size : ℚ
  speed : ℚ
deriving DecidableEq, Repr

/-- Method `PowerUp.update`: power-ups drift straight down. -/
def PowerUp.update (p : PowerUp) : PowerUp :=
  { p with y := p.y + p.speed }

/-- The fields of `class Particle`.  The source constructor derives the velocity from two
`Math.random()` draws through `cos`/`sin` of a random angle; that transform
is irrational, so the two raw draws are stored directly as the velocity
components.  No verified property reads a particle's velocity. -/
structure Particle where
  x : ℚ
  y : ℚ
  vx : ℚ
  vy : ℚ
  life : ℚ
  color : String
deriving DecidableEq, Repr

/-- Method `Particle.update`: moves by the velocity and fades by 0.02. -/
def Particle.update (p : Particle) : Particle :=
  { p with x := p.x + p.vx, y := p.y + p.vy, life := p.life - 2/100 }

/-- One `{ type, endTime }` entry of the `activePowerUps` React state. -/
structure ActivePowerUp where
  type : PowerUpType
  endTime : ℚ
deriving DecidableEq, Repr

/-- Pop one `Math.random()` draw off the stream (default 1 when exhausted;
1 fails every strict `< threshold` test the game performs). -/
def nextRand (rng : List ℚ) : ℚ × List ℚ :=
  (rng.headD 1, rng.tail)

/-- Function `Math.min` on rationals (spelled out so that it evaluates by
reduction). -/
def jsMin (a b : ℚ) : ℚ := if b ≤ a then b else a

/-- Function `Math.max` on rationals (spelled out so that it evaluates by
reduction). -/
def jsMax (a b : ℚ) : ℚ := if a ≤ b then b else a

/-- Callback `unlockAchievement`: if an entry with this id exists and is still locked,
mark it unlocked; otherwise leave the list unchanged. -/
def unlockAchievement (id : String) (l : List Achievement) : List Achievement :=
  if l.any fun a => a.id == id && !a.unlocked then
    l.map fun a => if a.id == id then { a with unlocked := true } else a
  else l

/-- The test `activePowerUps.some(p => p.type === t && p.endTime > now)` — the lazy
expiry test used by the triple-shot and shield consumers. -/
def hasActive (t : PowerUpType) (now : ℚ) (apu : List ActivePowerUp) : Bool :=
  apu.any fun p => p.type == t && decide (now < p.endTime)

/-- The defensive portion of the state: everything a hit on the player can
touch (lives, invincibility timer, the threaded `activePowerUps` value, and
the game-state flag set by a fatal hit). -/
structure DefSt where
  lives : ℕ
  invincibility : ℚ
  apu : List ActivePowerUp
  gameState : GameState
deriving DecidableEq, Repr

/-- The shared body of the two player-damage branches (enemy-bullet hit and
enemy contact): with a stale-snapshot shield the SHIELD entries are removed
from the threaded `activePowerUps`; otherwise `setLives` decrements (ending
the run at 0) and the invincibility timer restarts. -/
def playerHit (now : ℚ) (hasShield : Bool) (d : DefSt) : DefSt :=
  if hasShield then
    { d with apu := d.apu.filter fun p => !(p.type == PowerUpType.SHIELD) }
  else
    { d with
      lives := if d.lives ≤ 1 then 0 else d.lives - 1,
      gameState := if d.lives ≤ 1 then GameState.GAME_OVER else d.gameState,
      invincibility := now + INVINCIBILITY_DURATION }

/-- One enemy bullet against the player (the body of the enemy-bullet filter
pass, minus the motion update): point-in-player-box test gated by
invincibility; a hit consumes the bullet, otherwise the bullet survives if
it is still inside the field. -/
def ebStep (now px py w h : ℚ) (apu0 : List ActivePowerUp) (b : Bullet)
    (d : DefSt) : DefSt × Option Bullet :=
  let hasShield := hasActive PowerUpType.SHIELD now apu0
  if ¬ now < d.invincibility ∧
      px < b.x ∧ b.x < px + PLAYER_SIZE ∧ py < b.y ∧ b.y < py + PLAYER_SIZE then
    (playerHit now hasShield d, none)
  else
    (d, if b.y < h ∧ 0 < b.x ∧ b.x < w then some b else none)

/-- Result of an enemy-bullet pass. -/
structure EbOut where
  kept : List Bullet
  d : DefSt
deriving DecidableEq, Repr

/-- The enemy-bullet pass on already-moved bullets. -/
def ebPassC (now px py w h : ℚ) (apu0 : List ActivePowerUp) :
    List Bullet → DefSt → EbOut
  | [], d => ⟨[], d⟩
  | b :: bs, d =>
    let r := ebStep now px py w h apu0 b d
    let rest := ebPassC now px py w h apu0 bs r.1
    ⟨r.2.toList ++ rest.kept, rest.d⟩

/-- The enemy-bullet pass as the source writes it: each bullet moves inside
the filter callback just before its collision test. -/
def ebPassFused (now px py w h : ℚ) (apu0 : List ActivePowerUp) :
    List Bullet → DefSt → EbOut
  | [], d => ⟨[], d⟩
  | b :: bs, d =>
    let r := ebStep now px py w h apu0 (Bullet.update b) d
    let rest := ebPassFused now px py w h apu0 bs r.1
    ⟨r.2.toList ++ rest.kept, rest.d⟩

/-- The combat portion of the state: everything the bullet-vs-enemy block and
enemy firing can touch.  `newParticles`/`newPowerUps` accumulate this tick's
kill spawns, in push order, exactly as the source appends them to its arrays
before the later particle/power-up passes run. -/
structure CombatSt where
  score : ℕ
  killed : ℕ
  newParticles : List Particle
  newPowerUps : List PowerUp
  ach : List Achievement
  rng : List ℚ
deriving DecidableEq, Repr

/-- Constructor call `new Particle(x, y, color)` with its two `Math.random()` draws (see the
note on `Particle` about the trigonometric velocity transform). -/
def mkParticle (x y : ℚ) (color : String) (r1 r2 : ℚ) : Particle :=
  ⟨x, y, r1, r2, 1, color⟩

/-- The `for (let i = 0; i < n; i++) particles.push(new Particle(...))` loop
of the kill effect (source uses n = 10). -/
def mkParticles : ℕ → ℚ → ℚ → String → List ℚ → List Particle × List ℚ
  | 0, _, _, _, rng => ([], rng)
  | n + 1, x, y, col, rng =>
    let r1 := nextRand rng
    let r2 := nextRand r1.2
    let rest := mkParticles n x y col r2.2
    (mkParticle x y col r1.1 r2.1 :: rest.1, rest.2)

/-- Function `spawnPowerUp`: chance is `POWERUP_SPAWN_CHANCE`, decaying linearly with
level above 15 down to a 0.02 floor; on success the `PowerUp` constructor
draws the variant (40% triple-shot / 40% shield / 20% extra-life) and a
horizontal offset. -/
def spawnPowerUpRoll (lvl : ℕ) (w : ℚ) (c : CombatSt) : CombatSt :=
  let chance :=
    if 15 ≤ lvl then
      jsMax (2/100 : ℚ) (POWERUP_SPAWN_CHANCE - ((lvl : ℚ) - 15) * (1/100))
    else POWERUP_SPAWN_CHANCE
  let r := nextRand c.rng
  if r.1 < chance then
    let rt := nextRand r.2
    let ty :=
      if rt.1 < 2/5 then PowerUpType.TRIPLE_SHOT
      else if rt.1 < 4/5 then PowerUpType.SHIELD
      else PowerUpType.EXTRA_LIFE
    let rx := nextRand rt.2
    { c with
      newPowerUps := c.newPowerUps ++
        [⟨rx.1 * (w - POWERUP_SIZE), -POWERUP_SIZE, ty, POWERUP_SIZE, 3/2⟩],
      rng := rx.2 }
  else { c with rng := r.2 }

/-- The kill-effect block executed when `e.health <= 0` holds after a bullet
hit: score award, kill counter, 10 particles at the enemy's centre, the two
kill-count achievement milestones, and the power-up roll. -/
def killEffects (lvl : ℕ) (w : ℚ) (e : Enemy) (c : CombatSt) : CombatSt :=
  let c1 := { c with score := c.score + e.points, killed := c.killed + 1 }
  let pr := mkParticles 10 (e.x + e.size / 2) (e.y + e.size / 2) e.color c1.rng
  let c2 := { c1 with newParticles := c1.newParticles ++ pr.1, rng := pr.2 }
  let c3 :=
    if c2.killed = 1 then { c2 with ach := unlockAchievement "first_blood" c2.ach }
    else c2
  let c4 :=
    if c3.killed = 50 then { c3 with ach := unlockAchievement "ace_pilot" c3.ach }
    else c3
  spawnPowerUpRoll lvl w c4

/-- Result of the per-enemy bullet loop. -/
structure LoopOut where
  e : Enemy
  killedFlag : Bool
  bullets : List Bullet
  c : CombatSt
deriving DecidableEq, Repr

/-- The `bullets.forEach((b, bIdx) => ...)` block of the enemy pass.  A hit
decrements health, splices the bullet out, and — whenever the decremented
health is `≤ 0`, even if the enemy was already at 0 or below — runs the kill
effects.  Because `splice` shifts the array under a `forEach` whose cursor
still advances, the element right after a removed bullet is skipped (kept
without being tested), which the `b2 :: rest` branch reproduces. -/
def bulletLoop (lvl : ℕ) (w : ℚ) : Enemy → Bool → List Bullet → CombatSt → LoopOut
  | e, hit, [], c => ⟨e, hit, [], c⟩
  | e, hit, b :: bs, c =>
    if e.x < b.x ∧ b.x < e.x + e.size ∧ e.y < b.y ∧ b.y < e.y + e.size then
      let e1 : Enemy := { e with health := e.health - 1 }
      let hc : CombatSt × Bool :=
        if e1.health ≤ 0 then (killEffects lvl w e1 c, true) else (c, hit)
      match bs with
      | [] => ⟨e1, hc.2, [], hc.1⟩
      | b2 :: rest =>
        let r := bulletLoop lvl w e1 hc.2 rest hc.1
        ⟨r.e, r.killedFlag, b2 :: r.bullets, r.c⟩
    else
      let r := bulletLoop lvl w e hit bs c
      ⟨r.e, r.killedFlag, b :: r.bullets, r.c⟩

/-- Enemy firing (level ≥ 10): one draw per live enemy against
`min(0.05, 0.005 + (level - 10) * 0.002)`; success appends a single enemy
bullet at the enemy's bottom centre with velocity (0, 4). -/
def enemyFire (lvl : ℕ) (e : Enemy) (ebs : List Bullet) (rng : List ℚ) :
    List Bullet × List ℚ :=
  if 10 ≤ lvl then
    let fireChance := jsMin (5/100 : ℚ) (5/1000 + ((lvl : ℚ) - 10) * (2/1000))
    let r := nextRand rng
    if r.1 < fireChance then
      (ebs ++ [⟨e.x + e.size / 2, e.y + e.size, 0, 4, BULLET_SIZE, "#ef4444", true⟩], r.2)
    else (ebs, r.2)
  else (ebs, rng)

/-- Result of the combat half of one enemy's pass. -/
structure CombatOut where
  e : Enemy
  killedFlag : Bool
  bullets : List Bullet
  ebs : List Bullet
  c : CombatSt
deriving DecidableEq, Repr

/-- The combat half of one (already moved) enemy's turn in the enemy pass:
firing, then the bullet collision loop. -/
def enemyCombat (lvl : ℕ) (w : ℚ) (e : Enemy) (bl ebs : List Bullet)
    (c : CombatSt) : CombatOut :=
  let fr := enemyFire lvl e ebs c.rng
  let r := bulletLoop lvl w e false bl { c with rng := fr.2 }
  ⟨r.e, r.killedFlag, r.bullets, fr.1, r.c⟩

/-- The contact half of one enemy's turn: box-overlap with the player, gated
by invincibility; returns the updated defensive state and whether contact
damage fired (either shielded or not — both flag the enemy destroyed). -/
def enemyContact (now px py : ℚ) (apu0 : List ActivePowerUp) (e : Enemy)
    (d : DefSt) : DefSt × Bool :=
  let hasShield := hasActive PowerUpType.SHIELD now apu0
  if ¬ now < d.invincibility ∧
      px < e.x + e.size ∧ e.x < px + PLAYER_SIZE ∧
      py < e.y + e.size ∧ e.y < py + PLAYER_SIZE then
    (playerHit now hasShield d, true)
  else (d, false)

/-- Result of the whole enemy pass. -/
structure EnPassOut where
  enemies : List Enemy
  bullets : List Bullet
  ebs : List Bullet
  c : CombatSt
  d : DefSt
deriving DecidableEq, Repr

/-- The enemy pass as the source writes it: per enemy, motion, firing,
bullet collisions, then player contact; the enemy is dropped when it passed
the canvas bottom (`canvas.height`, the physical buffer height `ch`) or was
flagged hit by a kill or a contact. -/
def enPassFused (lvl : ℕ) (w now px py ch : ℚ) (apu0 : List ActivePowerUp) :
    List Enemy → List Bullet → List Bullet → CombatSt → DefSt → EnPassOut
  | [], bl, ebs, c, d => ⟨[], bl, ebs, c, d⟩
  | e :: es, bl, ebs, c, d =>
    let co := enemyCombat lvl w (Enemy.update e) bl ebs c
    let ct := enemyContact now px py apu0 co.e d
    let rest := enPassFused lvl w now px py ch apu0 es co.bullets co.ebs co.c ct.1
    ⟨if ch < co.e.y ∨ co.killedFlag ∨ ct.2 then rest.enemies else co.e :: rest.enemies,
     rest.bullets, rest.ebs, rest.c, rest.d⟩

/-- Result of the combat stage of the split enemy pass: the processed enemies
paired with their kill flags, plus the threaded combat data. -/
structure EnStage2Out where
  pairs : List (Enemy × Bool)
  bullets : List Bullet
  ebs : List Bullet
  c : CombatSt
deriving DecidableEq, Repr

/-- The player-bullet-vs-enemy stage of the staged tick, over already-moved
enemies (firing stays interleaved per enemy so that the random draws are
consumed in the source's order; firing is neither motion nor a collision
check). -/
def enStage2 (lvl : ℕ) (w : ℚ) :
    List Enemy → List Bullet → List Bullet → CombatSt → EnStage2Out
  | [], bl, ebs, c => ⟨[], bl, ebs, c⟩
  | e :: es, bl, ebs, c =>
    let co := enemyCombat lvl w e bl ebs c
    let rest := enStage2 lvl w es co.bullets co.ebs co.c
    ⟨(co.e, co.killedFlag) :: rest.pairs, rest.bullets, rest.ebs, rest.c⟩

/-- Result of the contact stage of the split enemy pass. -/
structure EnStage3Out where
  enemies : List Enemy
  d : DefSt
deriving DecidableEq, Repr

/-- The enemy-vs-player contact stage of the staged tick, consuming the
kill flags of the bullet stage (contact is tested even for enemies the
bullet stage already destroyed, as in the source). -/
def enStage3 (now px py ch : ℚ) (apu0 : List ActivePowerUp) :
    List (Enemy × Bool) → DefSt → EnStage3Out
  | [], d => ⟨[], d⟩
  | (e, killed) :: ps, d =>
    let ct := enemyContact now px py apu0 e d
    let rest := enStage3 now px py ch apu0 ps ct.1
    ⟨if ch < e.y ∨ killed ∨ ct.2 then rest.enemies else e :: rest.enemies, rest.d⟩

/-- One power-up against the player: pickup grants a life (extra-life,
with its achievement) or upserts the timed entry; every pickup bumps the
lifetime counter and checks the 10-pickup milestone.  Surviving power-ups
are kept while above the canvas bottom. -/
def puStep (now px py ch : ℚ) (p : PowerUp) (d : DefSt)
    (ach : List Achievement) (picked : ℕ) :
    DefSt × List Achievement × ℕ × Option PowerUp :=
  if px < p.x + p.size ∧ p.x < px + PLAYER_SIZE ∧
      py < p.y + p.size ∧ p.y < py + PLAYER_SIZE then
    let da :=
      if p.type = PowerUpType.EXTRA_LIFE then
        ({ d with lives := d.lives + 1 }, unlockAchievement "life_saver" ach)
      else
        ({ d with apu := (d.apu.filter fun pu => !(pu.type == p.type)) ++
            [⟨p.type, now + POWERUP_DURATION⟩] }, ach)
    let picked1 := picked + 1
    let ach2 := if picked1 = 10 then unlockAchievement "power_up_junkie" da.2 else da.2
    (da.1, ach2, picked1, none)
  else
    (d, ach, picked, if p.y < ch then some p else none)

/-- Result of the power-up pass. -/
structure PuOut where
  kept : List PowerUp
  d : DefSt
  ach : List Achievement
  picked : ℕ
deriving DecidableEq, Repr

/-- The power-up pass on already-moved power-ups. -/
def puPassC (now px py ch : ℚ) :
    List PowerUp → DefSt → List Achievement → ℕ → PuOut
  | [], d, ach, picked => ⟨[], d, ach, picked⟩
  | p :: ps, d, ach, picked =>
    let r := puStep now px py ch p d ach picked
    let rest := puPassC now px py ch ps r.1 r.2.1 r.2.2.1
    ⟨r.2.2.2.toList ++ rest.kept, rest.d, rest.ach, rest.picked⟩

/-- The power-up pass as the source writes it: each power-up moves inside
the filter callback just before its pickup test. -/
def puPassFused (now px py ch : ℚ) :
    List PowerUp → DefSt → List Achievement → ℕ → PuOut
  | [], d, ach, picked => ⟨[], d, ach, picked⟩
  | p :: ps, d, ach, picked =>
    let r := puStep now px py ch (PowerUp.update p) d ach picked
    let rest := puPassFused now px py ch ps r.1 r.2.1 r.2.2.1
    ⟨r.2.2.2.toList ++ rest.kept, rest.d, rest.ach, rest.picked⟩

/-- The particle pass: move, then keep while `life > 0` (the filter callback
mutates before testing, so this is map-then-filter). -/
def paPass (ps : List Particle) : List Particle :=
  (ps.map Particle.update).filter fun p => decide (0 < p.life)

/-- The player-bullet pass: move, then keep while inside the field (same
mutate-then-test filter shape). -/
def pbPass (w : ℚ) (bs : List Bullet) : List Bullet :=
  (bs.map Bullet.update).filter fun b => decide (0 < b.y ∧ 0 < b.x ∧ b.x < w)

/-- Input handling: the four directional key groups move the player by
`PLAYER_SPEED`, then both coordinates are clamped to the field. -/
def movePlayer (keys : String → Bool) (w h x y : ℚ) : ℚ × ℚ :=
  let x1 := if keys "ArrowLeft" || keys "a" then x - PLAYER_SPEED else x
  let x2 := if keys "ArrowRight" || keys "d" then x1 + PLAYER_SPEED else x1
  let y1 := if keys "ArrowUp" || keys "w" then y - PLAYER_SPEED else y
  let y2 := if keys "ArrowDown" || keys "s" then y1 + PLAYER_SPEED else y1
  (jsMax 0 (jsMin (w - PLAYER_SIZE) x2), jsMax 0 (jsMin (h - PLAYER_SIZE) y2))

/-- Automatic shooting: fires when strictly more than 150 ms passed since
`lastShot`; a live triple-shot entry yields three bullets with horizontal
velocities −2, 0, 2, otherwise one straight white bullet; firing stamps
`lastShot := now`. -/
def autoShoot (now px py : ℚ) (hasTriple : Bool) (bs : List Bullet)
    (lastShot : ℚ) : List Bullet × ℚ :=
  if 150 < now - lastShot then
    (bs ++
      (if hasTriple then
        [⟨px + PLAYER_SIZE / 2, py, -2, -BULLET_SPEED, BULLET_SIZE, "#f59e0b", false⟩,
         ⟨px + PLAYER_SIZE / 2, py, 0, -BULLET_SPEED, BULLET_SIZE, "#f59e0b", false⟩,
         ⟨px + PLAYER_SIZE / 2, py, 2, -BULLET_SPEED, BULLET_SIZE, "#f59e0b", false⟩]
      else
        [⟨px + PLAYER_SIZE / 2, py, 0, -BULLET_SPEED, BULLET_SIZE, "#fff", false⟩]),
     now)
  else (bs, lastShot)

/-- The two sequential threshold tests of `spawnEnemy` on its single
`Math.random()` draw (`let type = BASIC; if (...) type = FAST;
if (...) type = HEAVY`). -/
def variantOf (lvl : ℕ) (r : ℚ) : EnemyType :=
  let t1 := EnemyType.BASIC
  let t2 := if 2 ≤ lvl ∧ 7/10 < r then EnemyType.FAST else t1
  if 3 ≤ lvl ∧ 9/10 < r then EnemyType.HEAVY else t2

/-- Function `spawnEnemy`'s variant selection as a consumer of the random stream:
exactly one draw is taken. -/
def spawnVariantR (lvl : ℕ) (rng : List ℚ) : EnemyType × List ℚ :=
  let r := nextRand rng
  (variantOf lvl r.1, r.2)

/-- Modelled from the spec (for comparison with `spawnVariantR` only): the
variant selection the specification describes, "three independent random
draws" in tier order — one for the always-eligible base variant, one
against the fast threshold, one against the heavy threshold, higher tiers
overriding lower ones. -/
def spawnVariantSpecR (lvl : ℕ) (rng : List ℚ) : EnemyType × List ℚ :=
  let rBase := nextRand rng
  let rFast := nextRand rBase.2
  let rHeavy := nextRand rFast.2
  (if 3 ≤ lvl ∧ 9/10 < rHeavy.1 then EnemyType.HEAVY
   else if 2 ≤ lvl ∧ 7/10 < rFast.1 then EnemyType.FAST
   else EnemyType.BASIC, rHeavy.2)

/-- The per-tick enemy spawn: one chance draw against
`0.02 * (1 + level * 0.25)` (drawn whether or not the per-level cap already
blocks the spawn, matching the `&&` order of the source), then on success
`spawnEnemy` draws the variant and the horizontal offset and increments the
per-level spawn counter. -/
def spawnStep (lvl : ℕ) (w : ℚ) (enemies : List Enemy) (spawned : ℕ)
    (rng : List ℚ) : List Enemy × ℕ × List ℚ :=
  let r := nextRand rng
  if r.1 < 2/100 * (1 + (lvl : ℚ) * (1/4)) ∧ spawned < ENEMIES_PER_LEVEL * lvl then
    let rv := spawnVariantR lvl r.2
    let cfg := ENEMY_CONFIGS rv.1
    let rx := nextRand rv.2
    (enemies ++
      [⟨rx.1 * (w - cfg.size), -cfg.size, rv.1, cfg.size, cfg.speed, cfg.health,
        cfg.points, cfg.color, cfg.glow⟩],
     spawned + 1, rx.2)
  else (enemies, spawned, r.2)

/-- The level-up check at tick end: both conditions hold → level + 1,
counter reset, +1 life exactly when the new level is 15, achievement
exactly when the new level is 5. -/
def levelCheck (spawned : ℕ) (enemies : List Enemy) (lvl lives : ℕ)
    (ach : List Achievement) : ℕ × ℕ × ℕ × List Achievement :=
  if ENEMIES_PER_LEVEL * lvl ≤ spawned ∧ enemies.isEmpty then
    let next := lvl + 1
    let lives1 := if next = 15 then lives + 1 else lives
    let ach1 := if next = 5 then unlockAchievement "unstoppable" ach else ach
    (next, 0, lives1, ach1)
  else (lvl, spawned, lives, ach)

/-- The survivor milestone checked every tick. -/
def survivorCheck (now startTime : ℚ) (ach : List Achievement) : List Achievement :=
  if 60000 < now - startTime then unlockAchievement "survivor" ach else ach

/-- The whole simulation state one tick reads and writes: the `gameData`
ref plus the React state it updates. -/
structure GameSt where
  px : ℚ
  py : ℚ
  invincibility : ℚ
  bullets : List Bullet
  enemyBullets : List Bullet
  enemies : List Enemy
  powerUps : List PowerUp
  particles : List Particle
  lastShot : ℚ
  spawned : ℕ
  startTime : ℚ
  killed : ℕ
  picked : ℕ
  score : ℕ
  lives : ℕ
  level : ℕ
  gameState : GameState
  apu : List ActivePowerUp
  ach : List Achievement
  rng : List ℚ
deriving DecidableEq, Repr

/-- One tick of the game loop in the source's order: input and clamp,
automatic shooting, player-bullet move+bounds, enemy-bullet move+collide,
enemy spawn, enemy move+fire+bullet-collide+contact, power-up move+pickup,
particle move+decay, level check, survivor check.  `now` is the tick's
`Date.now()`, `w`/`h` the logical field size, `ch` the physical
`canvas.height` used by the enemy and power-up bottom tests. -/
def tickSrc (now w h ch : ℚ) (keys : String → Bool) (s : GameSt) : GameSt :=
  let apu0 := s.apu
  let pp := movePlayer keys w h s.px s.py
  let hasTriple := hasActive PowerUpType.TRIPLE_SHOT now apu0
  let sh := autoShoot now pp.1 pp.2 hasTriple s.bullets s.lastShot
  let bullets2 := pbPass w sh.1
  let d0 : DefSt := ⟨s.lives, s.invincibility, s.apu, s.gameState⟩
  let ebr := ebPassFused now pp.1 pp.2 w h apu0 s.enemyBullets d0
  let sp := spawnStep s.level w s.enemies s.spawned s.rng
  let c0 : CombatSt := ⟨s.score, s.killed, [], [], s.ach, sp.2.2⟩
  let er := enPassFused s.level w now pp.1 pp.2 ch apu0 sp.1 bullets2 ebr.kept c0 ebr.d
  let pur := puPassFused now pp.1 pp.2 ch (s.powerUps ++ er.c.newPowerUps) er.d er.c.ach s.picked
  let particles1 := paPass (s.particles ++ er.c.newParticles)
  let lc := levelCheck sp.2.1 er.enemies s.level pur.d.lives pur.ach
  { px := pp.1, py := pp.2, invincibility := pur.d.invincibility,
    bullets := er.bullets, enemyBullets := er.ebs, enemies := er.enemies,
    powerUps := pur.kept, particles := particles1,
    lastShot := sh.2, spawned := lc.2.1, startTime := s.startTime,
    killed := er.c.killed, picked := pur.picked, score := er.c.score,
    lives := lc.2.2.1, level := lc.1, gameState := pur.d.gameState,
    apu := pur.d.apu, ach := survivorCheck now s.startTime lc.2.2.2,
    rng := er.c.rng }

/-- The staged tick the ordering claim describes, amended: spawn, then a
motion phase over every entity present at that point, then the collision
stages in the claimed order (enemy-bullet-vs-player, player-bullet-vs-enemy,
enemy-vs-player, player-vs-power-up), then the level check — except that
power-ups and particles created by kills during collision resolution
receive their single motion update of the tick at their later stage. -/
def tickStagedAmd (now w h ch : ℚ) (keys : String → Bool) (s : GameSt) : GameSt :=
  let apu0 := s.apu
  let pp := movePlayer keys w h s.px s.py
  let hasTriple := hasActive PowerUpType.TRIPLE_SHOT now apu0
  let sh := autoShoot now pp.1 pp.2 hasTriple s.bullets s.lastShot
  let sp := spawnStep s.level w s.enemies s.spawned s.rng
  let bullets2 := pbPass w sh.1
  let ebsMoved := s.enemyBullets.map Bullet.update
  let ensMoved := sp.1.map Enemy.update
  let pusMoved := s.powerUps.map PowerUp.update
  let pasMoved := s.particles.map Particle.update
  let d0 : DefSt := ⟨s.lives, s.invincibility, s.apu, s.gameState⟩
  let ebr := ebPassC now pp.1 pp.2 w h apu0 ebsMoved d0
  let c0 : CombatSt := ⟨s.score, s.killed, [], [], s.ach, sp.2.2⟩
  let t2 := enStage2 s.level w ensMoved bullets2 ebr.kept c0
  let t3 := enStage3 now pp.1 pp.2 ch apu0 t2.pairs ebr.d
  let pur := puPassC now pp.1 pp.2 ch (pusMoved ++ t2.c.newPowerUps.map PowerUp.update)
    t3.d t2.c.ach s.picked
  let particles1 := (pasMoved ++ t2.c.newParticles.map Particle.update).filter
    fun p => decide (0 < p.life)
  let lc := levelCheck sp.2.1 t3.enemies s.level pur.d.lives pur.ach
  { px := pp.1, py := pp.2, invincibility := pur.d.invincibility,
    bullets := t2.bullets, enemyBullets := t2.ebs, enemies := t3.enemies,
    powerUps := pur.kept, particles := particles1,
    lastShot := sh.2, spawned := lc.2.1, startTime := s.startTime,
    killed := t2.c.killed, picked := pur.picked, score := t2.c.score,
    lives := lc.2.2.1, level := lc.1, gameState := pur.d.gameState,
    apu := pur.d.apu, ach := survivorCheck now s.startTime lc.2.2.2,
    rng := t2.c.rng }

/-- The staged tick exactly as the claim states it ("all motion updates
complete before any collision check begins"): identical to `tickStagedAmd`
except that entities created during collision resolution receive no motion
update this tick. -/
def tickStagedLit (now w h ch : ℚ) (keys : String → Bool) (s : GameSt) : GameSt :=
  let apu0 := s.apu
  let pp := movePlayer keys w h s.px s.py
  let hasTriple := hasActive PowerUpType.TRIPLE_SHOT now apu0
  let sh := autoShoot now pp.1 pp.2 hasTriple s.bullets s.lastShot
  let sp := spawnStep s.level w s.enemies s.spawned s.rng
  let bullets2 := pbPass w sh.1
  let ebsMoved := s.enemyBullets.map Bullet.update
  let ensMoved := sp.1.map Enemy.update
  let pusMoved := s.powerUps.map PowerUp.update
  let pasMoved := s.particles.map Particle.update
  let d0 : DefSt := ⟨s.lives, s.invincibility, s.apu, s.gameState⟩
  let ebr := ebPassC now pp.1 pp.2 w h apu0 ebsMoved d0
  let c0 : CombatSt := ⟨s.score, s.killed, [], [], s.ach, sp.2.2⟩
  let t2 := enStage2 s.level w ensMoved bullets2 ebr.kept c0
  let t3 := enStage3 now pp.1 pp.2 ch apu0 t2.pairs ebr.d
  let pur := puPassC now pp.1 pp.2 ch (pusMoved ++ t2.c.newPowerUps)
    t3.d t2.c.ach s.picked
  let particles1 := (pasMoved ++ t2.c.newParticles).filter
    fun p => decide (0 < p.life)
  let lc := levelCheck sp.2.1 t3.enemies s.level pur.d.lives pur.ach
  { px := pp.1, py := pp.2, invincibility := pur.d.invincibility,
    bullets := t2.bullets, enemyBullets := t2.ebs, enemies := t3.enemies,
    powerUps := pur.kept, particles := particles1,
    lastShot := sh.2, spawned := lc.2.1, startTime := s.startTime,
    killed := t2.c.killed, picked := pur.picked, score := t2.c.score,
    lives := lc.2.2.1, level := lc.1, gameState := pur.d.gameState,
    apu := pur.d.apu, ach := survivorCheck now s.startTime lc.2.2.2,
    rng := t2.c.rng }

/-- A concrete one-enemy, one-bullet state: the bullet destroys the enemy
this tick, the kill rolls a successful power-up spawn (chance draw 1/10
against 0.15), and nothing else happens — the player is far away, no key is
held, `lastShot = now` suppresses shooting, and the spawn-chance draw 1/2
fails against 0.025. -/
def exKillSpawn : GameSt :=
  { px := 100, py := 100, invincibility := 0,
    bullets := [⟨210, 67, 0, -7, 4, "#fff", false⟩],
    enemyBullets := [],
    enemies := [⟨200, 50, EnemyType.BASIC, 35, 2, 1, 100, "#3b82f6", "#60a5fa"⟩],
    powerUps := [], particles := [], lastShot := 1000,
    spawned := 0, startTime := 1000, killed := 0, picked := 0, score := 0,
    lives := 3, level := 1, gameState := GameState.PLAYING, apu := [],
    ach := INITIAL_ACHIEVEMENTS,
    rng := 1/2 :: (List.replicate 20 (1/2 : ℚ) ++ [1/10, 1/2, 1/2]) }

/-- A concrete enemy with 1 health overlapped by three bullets at once, for
exercising the bullet-vs-enemy loop. -/
def exTripleHitEnemy : Enemy := ⟨200, 50, EnemyType.BASIC, 35, 2, 1, 100, "#3b82f6", "#60a5fa"⟩

/-- Three player bullets, all inside `exTripleHitEnemy`'s box. -/
def exTripleHitBullets : List Bullet :=
  [⟨210, 60, 0, -7, 4, "#fff", false⟩,
   ⟨215, 60, 0, -7, 4, "#fff", false⟩,
   ⟨220, 60, 0, -7, 4, "#fff", false⟩]

/-- Combat state for the triple-hit scenario: every power-up chance draw is
9/10, which fails against the 0.15 spawn chance, so the random stream is
consumed only by particles and failed rolls. -/
def exTripleHitCombat : CombatSt :=
  ⟨0, 0, [], [], INITIAL_ACHIEVEMENTS, List.replicate 42 (9/10 : ℚ)⟩

-- Helper lemmas shared by the claim theorems.

/-- Function `jsMin` is the mathematical minimum. -/
theorem jsMin_eq_min (a b : ℚ) : jsMin a b = min a b := by
  unfold jsMin
  rcases le_total b a with hba | hab
  · rw [if_pos hba, min_eq_right hba]
  · by_cases hba : b ≤ a
    · rw [if_pos hba, min_eq_right hba]
    · rw [if_neg hba, min_eq_left hab]

/-- Function `jsMax` is the mathematical maximum. -/
theorem jsMax_eq_max (a b : ℚ) : jsMax a b = max a b := by
  unfold jsMax
  rcases le_total a b with hab | hba
  · rw [if_pos hab, max_eq_right hab]
  · by_cases hab : a ≤ b
    · rw [if_pos hab, max_eq_right hab]
    · rw [if_neg hab, max_eq_left hba]

/-- The active-power-up test is exactly "an entry of this variant whose
expiry lies in the future exists". -/
theorem hasActive_iff (t : PowerUpType) (now : ℚ) (apu : List ActivePowerUp) :
    hasActive t now apu = true ↔ ∃ p ∈ apu, p.type = t ∧ now < p.endTime := by
  simp [hasActive, List.any_eq_true, and_assoc]

/-- The clamp `jsMax 0 (jsMin c z)` lands in `[0, c]` when `0 ≤ c`. -/
theorem clamp_mem (c z : ℚ) (hc : 0 ≤ c) :
    0 ≤ jsMax 0 (jsMin c z) ∧ jsMax 0 (jsMin c z) ≤ c := by
  unfold jsMax jsMin
  split_ifs <;> constructor <;> linarith

/-- Hoisting the motion update out of the enemy-bullet filter pass: the
fused pass equals moving every bullet first and then running the collision
pass.  (The collision body of a bullet reads no other bullet.) -/
theorem ebPass_fused_eq (now px py w h : ℚ) (apu0 : List ActivePowerUp)
    (bs : List Bullet) : ∀ d : DefSt,
    ebPassFused now px py w h apu0 bs d =
      ebPassC now px py w h apu0 (bs.map Bullet.update) d := by
  induction bs with
  | nil => intro d; rfl
  | cons b bs ih =>
    intro d
    simp only [ebPassFused, ebPassC, List.map_cons, ih]

/-- Splitting the fused enemy pass: moving all enemies first, then running
the firing/bullet stage over all of them, then the contact stage, produces
the same result.  The combat stage touches only `CombatSt` (and the bullet
lists) while the contact stage touches only `DefSt`, so the per-enemy
interleaving of the source commutes into stages. -/
theorem enPass_split (lvl : ℕ) (w now px py ch : ℚ) (apu0 : List ActivePowerUp)
    (es : List Enemy) : ∀ (bl ebs : List Bullet) (c : CombatSt) (d : DefSt),
    enPassFused lvl w now px py ch apu0 es bl ebs c d =
      (let t := enStage2 lvl w (es.map Enemy.update) bl ebs c
       let u := enStage3 now px py ch apu0 t.pairs d
       ⟨u.enemies, t.bullets, t.ebs, t.c, u.d⟩) := by
  induction es with
  | nil => intro bl ebs c d; rfl
  | cons e es ih =>
    intro bl ebs c d
    simp only [enPassFused, enStage2, enStage3, List.map_cons, ih]

/-- Hoisting the motion update out of the power-up filter pass. -/
theorem puPass_fused_eq (now px py ch : ℚ) (ps : List PowerUp) :
    ∀ (d : DefSt) (ach : List Achievement) (picked : ℕ),
    puPassFused now px py ch ps d ach picked =
      puPassC now px py ch (ps.map PowerUp.update) d ach picked := by
  induction ps with
  | nil => intro d ach picked; rfl
  | cons p ps ih =>
    intro d ach picked
    simp only [puPassFused, puPassC, List.map_cons, ih]

-- Claim theorems.

unseal Rat.add Rat.sub Rat.mul Rat.inv Rat.ofScientific in
/-- C1 — counter-evidence evaluation: the claim (and §4.3 of the spec) says
an enemy already flagged destroyed in a tick scores its point value at most
once, with the kill effects applied exactly once per destruction.  On the
code, a 1-health enemy overlapped by three bullets in one pass is awarded
twice: the first hit drops health to 0 and runs the kill effects, the
`forEach`/`splice` interaction skips the second bullet, and the third hit
drops health to −1, where `e.health <= 0` re-runs the whole kill-effect
block — score 200 instead of 100, kill counter 2 instead of 1, 20 particles
instead of 10, and two power-up rolls. -/
theorem bulletLoop_kill_effects_twice :
    (bulletLoop 1 300 exTripleHitEnemy false exTripleHitBullets exTripleHitCombat).c.score = 200 ∧
    (bulletLoop 1 300 exTripleHitEnemy false exTripleHitBullets exTripleHitCombat).c.killed = 2 ∧
    (bulletLoop 1 300 exTripleHitEnemy false exTripleHitBullets exTripleHitCombat).c.newParticles.length = 20 ∧
    (bulletLoop 1 300 exTripleHitEnemy false exTripleHitBullets exTripleHitCombat).e.health = -1 := by
  decide

unseal Rat.add Rat.sub Rat.mul Rat.inv Rat.ofScientific in
/-- C2 — counterexample: the claim says the variant is selected by three
independent random draws.  The source's `spawnEnemy` takes a single draw and
tests it against both thresholds; on the stream `[95/100, 1/10, 1/10]` at
level 3 the source selects HEAVY consuming one draw, while the spec-modelled
three-draw selection consumes three draws and selects BASIC. -/
theorem spawnVariant_not_three_draws :
    spawnVariantR 3 [95/100, 1/10, 1/10] ≠ spawnVariantSpecR 3 [95/100, 1/10, 1/10] := by
  decide

/-- C2 (amended): the variant is selected from a single random draw by
tiered thresholds gated by level — for level ≤ 1 always the base variant;
for level 2 fast above 0.7; from level 3 on, the same draw is partitioned
into exclusive buckets (heavy above 0.9, fast in (0.7, 0.9], base
otherwise), the heavy check overriding the fast assignment within the same
spawn call.  Exactly one draw is consumed. -/
theorem spawnVariant_single_draw (lvl : ℕ) (r : ℚ) :
    spawnVariantR lvl [r] = (variantOf lvl r, []) ∧
    (lvl ≤ 1 → variantOf lvl r = EnemyType.BASIC) ∧
    (lvl = 2 → variantOf lvl r = if 7/10 < r then EnemyType.FAST else EnemyType.BASIC) ∧
    (3 ≤ lvl → variantOf lvl r =
      if 9/10 < r then EnemyType.HEAVY
      else if 7/10 < r then EnemyType.FAST
      else EnemyType.BASIC) := by
  refine ⟨rfl, ?_, ?_, ?_⟩
  · intro h1
    simp only [variantOf]
    rw [if_neg fun hc => absurd hc.1 (by omega),
      if_neg fun hc => absurd hc.1 (by omega)]
  · rintro rfl
    by_cases hr : 7/10 < r
    · rw [if_pos hr]
      simp only [variantOf]
      rw [if_neg fun hc => absurd hc.1 (by omega), if_pos ⟨by omega, hr⟩]
    · rw [if_neg hr]
      simp only [variantOf]
      rw [if_neg fun hc => hr (lt_trans (by norm_num) hc.2),
        if_neg fun hc => hr hc.2]
  · intro h3
    by_cases h9 : 9/10 < r
    · rw [if_pos h9]
      simp only [variantOf]
      rw [if_pos ⟨h3, h9⟩]
    · rw [if_neg h9]
      by_cases h7 : 7/10 < r
      · rw [if_pos h7]
        simp only [variantOf]
        rw [if_neg fun hc => h9 hc.2, if_pos ⟨by omega, h7⟩]
      · rw [if_neg h7]
        simp only [variantOf]
        rw [if_neg fun hc => h9 hc.2, if_neg fun hc => h7 hc.2]

/-- C2 — witness: at level 3 a draw of 0.95 lands in the heavy bucket. -/
theorem spawnVariant_single_draw_witness :
    variantOf 3 (95/100 : ℚ) = EnemyType.HEAVY := by
  have hcall := (spawnVariant_single_draw 3 (95/100)).2.2.2 (by norm_num)
  rw [hcall, if_pos (by norm_num)]

/-- C3: the level-up check fires exactly when the per-level spawn counter
has reached `ENEMIES_PER_LEVEL * level` and the live-enemy collection is
empty; it then increments the level by exactly 1, resets the counter to 0,
grants +1 life exactly when the new level is 15, and unlocks the
"unstoppable" achievement exactly when the new level is 5; otherwise it
changes nothing.  In both cases the level never decreases. -/
theorem levelCheck_sound (sp : ℕ) (ens : List Enemy) (lvl lives : ℕ)
    (ach : List Achievement) :
    levelCheck sp ens lvl lives ach =
      (if ENEMIES_PER_LEVEL * lvl ≤ sp ∧ ens = [] then
        (lvl + 1, 0,
         (if lvl + 1 = 15 then lives + 1 else lives),
         (if lvl + 1 = 5 then unlockAchievement "unstoppable" ach else ach))
      else (lvl, sp, lives, ach)) ∧
    lvl ≤ (levelCheck sp ens lvl lives ach).1 := by
  constructor
  · simp only [levelCheck, List.isEmpty_iff]
  · by_cases hc : ENEMIES_PER_LEVEL * lvl ≤ sp ∧ ens.isEmpty = true
    · simp only [levelCheck, if_pos hc]
      omega
    · simp only [levelCheck, if_neg hc]
      exact le_refl lvl

unseal Rat.add Rat.sub Rat.mul Rat.inv Rat.ofScientific in
/-- C4 — counterexample: the tick is not equivalent to the literal staged
composition in which every motion update of the tick precedes every
collision check.  On `exKillSpawn` the kill during bullet-vs-enemy
resolution spawns a power-up and ten particles; the source's tick still
moves them (power-up to y = −28.5, particle life to 0.98) in the later
power-up/particle passes of the same tick, while under the literal staging
they stay unmoved (y = −30, life 1). -/
theorem tick_not_literally_staged :
    tickSrc 1000 300 400 400 (fun _ => false) exKillSpawn ≠
      tickStagedLit 1000 300 400 400 (fun _ => false) exKillSpawn := by
  decide

/-- C4 (amended): the source's tick is equivalent to the staged composition
— all motion updates, then collision resolution in the fixed order
enemy-bullet-vs-player, player-bullet-vs-enemy, enemy-vs-player,
player-vs-power-up, then the level-progression check — except that
power-ups and particles created by kills during collision resolution
receive their single motion update of the tick at their own later stage
rather than in the motion phase. -/
theorem tick_staged_equiv (now w h ch : ℚ) (keys : String → Bool) (s : GameSt) :
    tickSrc now w h ch keys s = tickStagedAmd now w h ch keys s := by
  simp only [tickSrc, tickStagedAmd, ebPass_fused_eq, enPass_split, puPass_fused_eq,
    paPass, List.map_append]

-- Invincibility frame lemmas feeding C5.

/-- While invincible, one enemy bullet leaves the defensive state alone. -/
theorem ebStep_inv (now px py w h : ℚ) (apu0 : List ActivePowerUp) (b : Bullet)
    (d : DefSt) (hinv : now < d.invincibility) :
    (ebStep now px py w h apu0 b d).1 = d := by
  simp only [ebStep]
  rw [if_neg fun hc => hc.1 hinv]

/-- While invincible, the whole enemy-bullet pass leaves the defensive
state alone. -/
theorem ebPassFused_inv (now px py w h : ℚ) (apu0 : List ActivePowerUp)
    (bs : List Bullet) : ∀ d : DefSt, now < d.invincibility →
    (ebPassFused now px py w h apu0 bs d).d = d := by
  induction bs with
  | nil => intro d _; rfl
  | cons b bs ih =>
    intro d hinv
    simp only [ebPassFused]
    rw [ebStep_inv now px py w h apu0 (Bullet.update b) d hinv]
    exact ih d hinv

/-- While invincible, one enemy contact leaves the defensive state alone. -/
theorem enemyContact_inv (now px py : ℚ) (apu0 : List ActivePowerUp)
    (e : Enemy) (d : DefSt) (hinv : now < d.invincibility) :
    (enemyContact now px py apu0 e d).1 = d := by
  simp only [enemyContact]
  rw [if_neg fun hc => hc.1 hinv]

/-- While invincible, the whole enemy pass leaves the defensive state
alone. -/
theorem enPassFused_inv (lvl : ℕ) (w now px py ch : ℚ)
    (apu0 : List ActivePowerUp) (es : List Enemy) :
    ∀ (bl ebs : List Bullet) (c : CombatSt) (d : DefSt),
      now < d.invincibility →
      (enPassFused lvl w now px py ch apu0 es bl ebs c d).d = d := by
  induction es with
  | nil => intro bl ebs c d _; rfl
  | cons e es ih =>
    intro bl ebs c d hinv
    simp only [enPassFused]
    rw [enemyContact_inv now px py apu0 _ d hinv]
    exact ih _ _ _ d hinv

/-- C5: during a tick in which the player is invincible (`now` before the
invincible-until timestamp), the enemy-bullet pass and the enemy pass leave
the entire defensive state — lives, every ActivePowerUp entry (so in
particular any SHIELD entry), and the invincible-until timestamp itself —
unchanged. -/
theorem invincible_player_untouched (lvl : ℕ) (w now px py h ch : ℚ)
    (apu0 : List ActivePowerUp) (ebs0 : List Bullet) (es : List Enemy)
    (bl ebs : List Bullet) (c : CombatSt) (d : DefSt)
    (hinv : now < d.invincibility) :
    (ebPassFused now px py w h apu0 ebs0 d).d = d ∧
    (enPassFused lvl w now px py ch apu0 es bl ebs c d).d = d :=
  ⟨ebPassFused_inv now px py w h apu0 ebs0 d hinv,
   enPassFused_inv lvl w now px py ch apu0 es bl ebs c d hinv⟩

/-- C5 — witness: a ten-lives player invincible until 5 keeps its whole
defensive state through both passes at `now = 0`, with a bullet and an
enemy sitting right on top of the player. -/
theorem invincible_player_untouched_witness :
    (0 : ℚ) < 5 ∧
    (ebPassFused 0 1 1 300 400 [⟨PowerUpType.SHIELD, 9⟩]
        [⟨2, 2, 0, 0, 4, "#ef4444", true⟩]
        ⟨10, 5, [⟨PowerUpType.SHIELD, 9⟩], GameState.PLAYING⟩).d =
      ⟨10, 5, [⟨PowerUpType.SHIELD, 9⟩], GameState.PLAYING⟩ ∧
    (enPassFused 1 300 0 1 1 400 [⟨PowerUpType.SHIELD, 9⟩]
        [⟨2, 2, EnemyType.BASIC, 35, 2, 1, 100, "#3b82f6", "#60a5fa"⟩] [] []
        ⟨0, 0, [], [], [], []⟩
        ⟨10, 5, [⟨PowerUpType.SHIELD, 9⟩], GameState.PLAYING⟩).d =
      ⟨10, 5, [⟨PowerUpType.SHIELD, 9⟩], GameState.PLAYING⟩ := by
  refine ⟨by norm_num, ?_⟩
  exact invincible_player_untouched 1 300 0 1 1 400 400 [⟨PowerUpType.SHIELD, 9⟩]
    [⟨2, 2, 0, 0, 4, "#ef4444", true⟩]
    [⟨2, 2, EnemyType.BASIC, 35, 2, 1, 100, "#3b82f6", "#60a5fa"⟩] [] []
    ⟨0, 0, [], [], [], []⟩
    ⟨10, 5, [⟨PowerUpType.SHIELD, 9⟩], GameState.PLAYING⟩ (by norm_num)

/-- C6: with the player not invincible, a live SHIELD entry in the
snapshot, and an enemy bullet overlapping the player, the hit is absorbed:
lives are unchanged, the SHIELD entries are removed from the threaded
ActivePowerUp list (none remains), the bullet is destroyed, and the
invincibility timestamp is not restarted. -/
theorem shield_absorbs_bullet (now px py w h : ℚ) (apu0 : List ActivePowerUp)
    (b : Bullet) (d : DefSt)
    (hinv : ¬ now < d.invincibility)
    (hsh : ∃ p ∈ apu0, p.type = PowerUpType.SHIELD ∧ now < p.endTime)
    (hx1 : px < b.x) (hx2 : b.x < px + PLAYER_SIZE)
    (hy1 : py < b.y) (hy2 : b.y < py + PLAYER_SIZE) :
    (ebStep now px py w h apu0 b d).1.lives = d.lives ∧
    (ebStep now px py w h apu0 b d).1.apu =
      d.apu.filter (fun p => !(p.type == PowerUpType.SHIELD)) ∧
    (∀ q ∈ (ebStep now px py w h apu0 b d).1.apu, q.type ≠ PowerUpType.SHIELD) ∧
    (ebStep now px py w h apu0 b d).2 = none ∧
    (ebStep now px py w h apu0 b d).1.invincibility = d.invincibility := by
  have hs : hasActive PowerUpType.SHIELD now apu0 = true := (hasActive_iff _ _ _).2 hsh
  simp only [ebStep]
  rw [if_pos ⟨hinv, hx1, hx2, hy1, hy2⟩]
  simp only [playerHit]
  rw [if_pos hs]
  refine ⟨rfl, rfl, ?_, trivial, rfl⟩
  intro q hq
  have hmem := List.mem_filter.1 hq
  simpa using hmem.2

/-- C6 — witness: a bullet at (10, 10) over the player at (0, 0) with a
live shield is absorbed without life loss. -/
theorem shield_absorbs_bullet_witness :
    (ebStep 1000 0 0 300 400 [⟨PowerUpType.SHIELD, 9000⟩]
        ⟨10, 10, 0, 4, 4, "#ef4444", true⟩
        ⟨3, 0, [⟨PowerUpType.SHIELD, 9000⟩], GameState.PLAYING⟩).1.lives = 3 ∧
    (ebStep 1000 0 0 300 400 [⟨PowerUpType.SHIELD, 9000⟩]
        ⟨10, 10, 0, 4, 4, "#ef4444", true⟩
        ⟨3, 0, [⟨PowerUpType.SHIELD, 9000⟩], GameState.PLAYING⟩).2 = none := by
  have hcall := shield_absorbs_bullet 1000 0 0 300 400 [⟨PowerUpType.SHIELD, 9000⟩]
    ⟨10, 10, 0, 4, 4, "#ef4444", true⟩
    ⟨3, 0, [⟨PowerUpType.SHIELD, 9000⟩], GameState.PLAYING⟩
    (by norm_num) ⟨⟨PowerUpType.SHIELD, 9000⟩, by simp, rfl, by norm_num⟩
    (by norm_num) (by norm_num [PLAYER_SIZE]) (by norm_num) (by norm_num [PLAYER_SIZE])
  exact ⟨hcall.1, hcall.2.2.2.1⟩

/-- C7: picking up a non-consumable power-up (triple-shot or shield) leaves
exactly one ActivePowerUp entry of that variant, whose expiry is
`now + POWERUP_DURATION`; and given that every entry it replaced was
inserted no later than `now` (so its expiry is at most
`now + POWERUP_DURATION`), the new expiry is at least every replaced one —
a refresh, not a stack. -/
theorem powerup_pickup_upserts (now px py ch : ℚ) (p : PowerUp) (d : DefSt)
    (ach : List Achievement) (picked : ℕ)
    (htype : p.type = PowerUpType.TRIPLE_SHOT ∨ p.type = PowerUpType.SHIELD)
    (hover : px < p.x + p.size ∧ p.x < px + PLAYER_SIZE ∧
      py < p.y + p.size ∧ p.y < py + PLAYER_SIZE)
    (hold : ∀ q ∈ d.apu, q.type = p.type → q.endTime ≤ now + POWERUP_DURATION) :
    ((puStep now px py ch p d ach picked).1.apu.filter fun q => q.type == p.type) =
      [⟨p.type, now + POWERUP_DURATION⟩] ∧
    ∀ q ∈ d.apu, q.type = p.type →
      q.endTime ≤ (⟨p.type, now + POWERUP_DURATION⟩ : ActivePowerUp).endTime := by
  have hne : ¬ p.type = PowerUpType.EXTRA_LIFE := by
    rcases htype with h | h <;> simp [h]
  constructor
  · simp only [puStep]
    rw [if_pos hover, if_neg hne]
    rw [List.filter_append]
    have h1 : ((d.apu.filter fun pu => !(pu.type == p.type)).filter
        fun q => q.type == p.type) = [] := by
      rw [List.filter_eq_nil_iff]
      intro a ha
      have h2 := (List.mem_filter.1 ha).2
      simp only [Bool.not_eq_true'] at h2
      simp [h2]
    rw [h1, List.nil_append]
    simp
  · exact hold

/-- C7 — witness: refreshing an already-active shield at `now = 1000`
leaves exactly one SHIELD entry expiring at `1000 + POWERUP_DURATION`. -/
theorem powerup_pickup_upserts_witness :
    ((puStep 1000 0 0 400 ⟨5, 5, PowerUpType.SHIELD, 30, 3/2⟩
        ⟨3, 0, [⟨PowerUpType.SHIELD, 2000⟩], GameState.PLAYING⟩
        INITIAL_ACHIEVEMENTS 0).1.apu.filter
      fun q => q.type == PowerUpType.SHIELD) =
      [⟨PowerUpType.SHIELD, 1000 + POWERUP_DURATION⟩] := by
  have hcall := powerup_pickup_upserts 1000 0 0 400 ⟨5, 5, PowerUpType.SHIELD, 30, 3/2⟩
    ⟨3, 0, [⟨PowerUpType.SHIELD, 2000⟩], GameState.PLAYING⟩ INITIAL_ACHIEVEMENTS 0
    (Or.inr rfl)
    ⟨by norm_num, by norm_num [PLAYER_SIZE], by norm_num, by norm_num [PLAYER_SIZE]⟩
    (by
      intro q hq hqt
      simp only [List.mem_singleton] at hq
      subst hq
      norm_num [POWERUP_DURATION])
  exact hcall.1

unseal Rat.sub in
/-- C8 — counterexample: the claim says the player fires once at least 150
milliseconds have elapsed since the last shot; with exactly 150 ms elapsed
(`now = 150`, `lastShot = 0`) the code's strict `now - lastShot > 150` test
fails and no bullet is appended. -/
theorem autoShoot_at_exactly_150 :
    (150 : ℚ) - 0 ≥ 150 ∧ autoShoot 150 0 0 false [] 0 = ([], 0) := by
  decide

/-- C8 (amended): the player fires exactly when strictly more than 150 ms
have elapsed since the last shot: three amber bullets with horizontal
velocities −2, 0, 2 and vertical velocity `-BULLET_SPEED` from the
player's top centre when a TRIPLE_SHOT entry with `endTime > now` exists in
the snapshot, otherwise one straight white bullet; firing stamps the
last-shot timestamp with `now`.  At 150 ms or less, nothing changes. -/
theorem autoShoot_fire_rule (now px py ls : ℚ) (apu0 : List ActivePowerUp)
    (bs : List Bullet) :
    (150 < now - ls → (∃ pa ∈ apu0, pa.type = PowerUpType.TRIPLE_SHOT ∧ now < pa.endTime) →
      autoShoot now px py (hasActive PowerUpType.TRIPLE_SHOT now apu0) bs ls =
        (bs ++ [⟨px + PLAYER_SIZE/2, py, -2, -BULLET_SPEED, BULLET_SIZE, "#f59e0b", false⟩,
                ⟨px + PLAYER_SIZE/2, py, 0, -BULLET_SPEED, BULLET_SIZE, "#f59e0b", false⟩,
                ⟨px + PLAYER_SIZE/2, py, 2, -BULLET_SPEED, BULLET_SIZE, "#f59e0b", false⟩],
         now)) ∧
    (150 < now - ls → (¬ ∃ pa ∈ apu0, pa.type = PowerUpType.TRIPLE_SHOT ∧ now < pa.endTime) →
      autoShoot now px py (hasActive PowerUpType.TRIPLE_SHOT now apu0) bs ls =
        (bs ++ [⟨px + PLAYER_SIZE/2, py, 0, -BULLET_SPEED, BULLET_SIZE, "#fff", false⟩],
         now)) ∧
    (¬ 150 < now - ls →
      autoShoot now px py (hasActive PowerUpType.TRIPLE_SHOT now apu0) bs ls = (bs, ls)) := by
  refine ⟨?_, ?_, ?_⟩
  · intro ht hex
    have hh : hasActive PowerUpType.TRIPLE_SHOT now apu0 = true := (hasActive_iff _ _ _).2 hex
    simp only [autoShoot, if_pos ht, hh, if_true]
  · intro ht hex
    cases heq : hasActive PowerUpType.TRIPLE_SHOT now apu0 with
    | true => exact absurd ((hasActive_iff _ _ _).1 heq) hex
    | false => simp only [autoShoot, if_pos ht, Bool.false_eq_true, if_false]
  · intro hn
    simp only [autoShoot, if_neg hn]

/-- C8 — witness: 200 ms after the last shot with no triple-shot active,
exactly one straight bullet is appended and the last-shot time becomes
`now = 200`. -/
theorem autoShoot_fire_rule_witness :
    autoShoot 200 0 0 (hasActive PowerUpType.TRIPLE_SHOT 200 ([] : List ActivePowerUp)) [] 0 =
      ([⟨0 + PLAYER_SIZE/2, 0, 0, -BULLET_SPEED, BULLET_SIZE, "#fff", false⟩], 200) := by
  exact (autoShoot_fire_rule 200 0 0 0 [] []).2.1 (by norm_num) (by simp)

/-- C9: an enemy never fires below level 10; from level 10 on, its single
per-tick draw fires exactly when it is below
`min(0.05, 0.005 + (level - 10) * 0.002)`, appending one enemy bullet at
the enemy's bottom centre with velocity (0, 4). -/
theorem enemyFire_rule (lvl : ℕ) (e : Enemy) (ebs : List Bullet) (rng : List ℚ) :
    (lvl < 10 → enemyFire lvl e ebs rng = (ebs, rng)) ∧
    (10 ≤ lvl →
      (rng.headD 1 < min (5/100 : ℚ) (5/1000 + ((lvl : ℚ) - 10) * (2/1000)) →
        enemyFire lvl e ebs rng =
          (ebs ++ [⟨e.x + e.size/2, e.y + e.size, 0, 4, BULLET_SIZE, "#ef4444", true⟩],
           rng.tail)) ∧
      (¬ rng.headD 1 < min (5/100 : ℚ) (5/1000 + ((lvl : ℚ) - 10) * (2/1000)) →
        enemyFire lvl e ebs rng = (ebs, rng.tail))) := by
  refine ⟨?_, fun h10 => ⟨?_, ?_⟩⟩
  · intro hl
    simp only [enemyFire]
    rw [if_neg (by omega)]
  · intro hlt
    rw [← jsMin_eq_min] at hlt
    simp only [enemyFire, nextRand]
    rw [if_pos h10, if_pos hlt]
  · intro hge
    rw [← jsMin_eq_min] at hge
    simp only [enemyFire, nextRand]
    rw [if_pos h10, if_neg hge]

/-- C9 — witness: at level 12 the fire chance is 0.009 and the draw 0
succeeds, appending the bullet at the enemy's bottom centre. -/
theorem enemyFire_rule_witness :
    enemyFire 12 ⟨100, 50, EnemyType.BASIC, 35, 2, 1, 100, "#3b82f6", "#60a5fa"⟩ [] [0] =
      ([⟨100 + 35/2, 50 + 35, 0, 4, BULLET_SIZE, "#ef4444", true⟩], []) := by
  have hcall := ((enemyFire_rule 12
    ⟨100, 50, EnemyType.BASIC, 35, 2, 1, 100, "#3b82f6", "#60a5fa"⟩ [] [0]).2
    (by norm_num)).1 (lt_min (by norm_num) (by norm_num))
  exact hcall

/-- C10: whatever position key movement or accumulated touch-drag deltas
produced, after the clamp of the input phase the player's coordinates lie
inside `[0, fieldWidth - PLAYER_SIZE] × [0, fieldHeight - PLAYER_SIZE]`
(provided the field is at least as large as the player). -/
theorem movePlayer_clamped (keys : String → Bool) (w h x y : ℚ)
    (hw : PLAYER_SIZE ≤ w) (hh : PLAYER_SIZE ≤ h) :
    0 ≤ (movePlayer keys w h x y).1 ∧ (movePlayer keys w h x y).1 ≤ w - PLAYER_SIZE ∧
    0 ≤ (movePlayer keys w h x y).2 ∧ (movePlayer keys w h x y).2 ≤ h - PLAYER_SIZE := by
  simp only [movePlayer]
  exact ⟨(clamp_mem _ _ (by linarith)).1, (clamp_mem _ _ (by linarith)).2,
    (clamp_mem _ _ (by linarith)).1, (clamp_mem _ _ (by linarith)).2⟩

/-- C10 — witness: a player dragged to (1000, −50) on a 300 × 400 field is
clamped back into the field. -/
theorem movePlayer_clamped_witness :
    0 ≤ (movePlayer (fun _ => false) 300 400 1000 (-50)).1 ∧
    (movePlayer (fun _ => false) 300 400 1000 (-50)).1 ≤ 300 - PLAYER_SIZE ∧
    0 ≤ (movePlayer (fun _ => false) 300 400 1000 (-50)).2 ∧
    (movePlayer (fun _ => false) 300 400 1000 (-50)).2 ≤ 400 - PLAYER_SIZE :=
  movePlayer_clamped (fun _ => false) 300 400 1000 (-50)
    (by norm_num [PLAYER_SIZE]) (by norm_num [PLAYER_SIZE])

end StarWar
